import Mathlib

/-!
Shallow embedding of the tabbed text editor (src/1.0.0.py): the syntax
highlighting engine (`SyntaxHighlighter`), the document/tab state model
(`EditorTab`), and the session-level operations (`TextEditor`).

Conventions of the embedding:
* A text buffer is a `List Char`; `spans` mirrors the tag state of the
  text widget as (start, stop, tag) character-offset annotations.
* File I/O and user dialogs are external events: they enter the
  embedding as explicit parameters (an `IOOutcome` for open/save, a
  `ConfirmResponse` for the tri-state save prompt, an `Int` clock value
  for `time.time()`).
* The Tk `<<Modified>>` virtual event generated by a text insertion is
  modelled as running its bound handler `_on_modify` when the event is
  processed; an exception raised inside such a Tk callback is reported
  by the callback handler and does not propagate to the caller.
* A key fact of the source, established from the standard library:
  `tkinter.Text.search` has the signature `(pattern, index, stopindex,
  forwards, backwards, exact, regexp, nocase, count, elide)` — it has no
  `flags` parameter.  `SyntaxHighlighter._highlight_pattern` passes
  `flags=flags` (even for the default `flags=0`), so its first statement
  raises `TypeError` on every call, before any match is attempted or any
  tag added.  (Even with that argument removed, `self.text.count('chars',
  start, tk.ANCHOR)` would issue the invalid Tcl call `count -anchor
  chars`, raising `TclError`.)  Functions that can hit this exception
  return their state paired with a raised-exception flag; python
  mutations performed before the raise persist in that state.
-/

/-- The tag names configured by `SyntaxHighlighter._init_tags`. -/
inductive Tag where
  | keyword
  | string
  | comment
  | number
  | constant
  | tag
  | entity
deriving DecidableEq, Repr

/-- A highlight span: start offset (inclusive), stop offset (exclusive),
and a tag name, mirroring a `tag_add` annotation on the text widget. -/
structure Span where
  start : Nat
  stop : Nat
  tag : Tag
deriving DecidableEq, Repr

/-- Outcome of the file write attempted by `EditorTab.save` (the body of
its `try` block): either the write succeeds or `open`/`write` raises,
landing in the `except` branch with an error message. -/
inductive IOOutcome where
  | ok
  | ioError (msg : String)
deriving DecidableEq, Repr

/-- The three answers of `messagebox.askyesnocancel` used by
`TextEditor._confirm_save`: `True`, `False`, `None`. -/
inductive ConfirmResponse where
  | yes
  | no
  | cancel
deriving DecidableEq, Repr

/-- State of one `EditorTab`: its Tk widget identity (`name` is the
pathname that `notebook.tabs()` yields, `wid` is `winfo_id()`), the text
widget's buffer and internal modified flag (`edit_modified`), and the
fields set in `EditorTab.__init__` plus the attached highlighter's
language and the currently applied spans. -/
structure EditorTab where
  name : String
  wid : Nat
  buffer : List Char
  widget_modified : Bool
  text_modified : Bool
  file_path : Option String
  encoding : String
  last_save : Int
  hl_language : String
  spans : List Span
deriving DecidableEq, Repr

/-- A fresh `EditorTab` as built by `EditorTab.__init__` at clock time
`now`: no file path, utf-8, unmodified, highlighter language python. -/
def newEditorTab (name : String) (wid : Nat) (now : Int) : EditorTab :=
  { name := name
    wid := wid
    buffer := []
    widget_modified := false
    text_modified := false
    file_path := none
    encoding := "utf-8"
    last_save := now
    hl_language := "python"
    spans := [] }

/-- `EditorTab.save`: does nothing without a file path; otherwise on a
successful write resets `text_modified` and sets `last_save`, and on an
exception only shows a message box, leaving every field untouched. -/
def save (t : EditorTab) (io : IOOutcome) (now : Int) : EditorTab :=
  match t.file_path with
  | none => t
  | some _ =>
    match io with
    | IOOutcome.ok => { t with text_modified := false, last_save := now }
    | IOOutcome.ioError _ => t

/-- `EditorTab._auto_save_check`: fires `save()` when the session's
`auto_save` flag is set and more than 30 seconds elapsed since
`last_save`.  The second component records whether `save()` was invoked
(the observable "triggered" of the spec). -/
def auto_save_check (t : EditorTab) (autoSave : Bool) (now : Int)
    (io : IOOutcome) : EditorTab × Bool :=
  if autoSave ∧ now - t.last_save > 30 then (save t io now, true)
  else (t, false)

/-- `TextEditor._confirm_save`: `None` answer returns `False`; a `True`
answer runs `tab.save()` (whose failure is swallowed) and, like the
`False` answer, returns `True`.  The pair is (returned flag, the tab's
state after the prompt). -/
def confirm_save (t : EditorTab) (resp : ConfirmResponse)
    (io : IOOutcome) (now : Int) : Bool × EditorTab :=
  match resp with
  | ConfirmResponse.cancel => (false, t)
  | ConfirmResponse.yes => (true, save t io now)
  | ConfirmResponse.no => (true, t)

/-! ## The highlight rule table and the highlighting methods

`SYNTAX_RULES` is carried as data — the per-language optional keywords
regex and the declared (pattern, tag) list.  The scan flags of the
entries (`re.MULTILINE`, `re.DOTALL`) are exactly what `highlight`
forwards to `_highlight_pattern` as the third tuple element, ending up
in the invalid `flags` keyword. -/

/-- The `patterns` list of `SYNTAX_RULES['python']`, in declared order. -/
def pythonPatterns : List (String × Tag) :=
  [("#.*?$", Tag.comment),
   ("\"\"\".*?\"\"\"", Tag.string),
   ("\x27\x27\x27.*?\x27\x27\x27", Tag.string),
   ("\"(?:[^\"\\\\]|\\\\.)*\"", Tag.string),
   ("\x27(?:[^\x27\\\\]|\\\\.)*\x27", Tag.string),
   ("\\b\\d+\\.?\\d*\\b", Tag.number),
   ("\\b(True|False|None)\\b", Tag.constant)]

/-- The `patterns` list of `SYNTAX_RULES['html']`, in declared order. -/
def htmlPatterns : List (String × Tag) :=
  [("<!--.*?-->", Tag.comment),
   ("<\\w+>", Tag.tag),
   ("</\\w+>", Tag.tag),
   ("\".*?\"", Tag.string),
   ("\x27.*?\x27", Tag.string),
   ("&\\w+;", Tag.entity)]

/-- `SYNTAX_RULES`: language ↦ (optional `keywords` regex, `patterns`). -/
def SYNTAX_RULES : List (String × Option String × List (String × Tag)) :=
  [("python",
    (some "\\b(if|else|for|while|def|class|import|from|try|except|finally|return|break|continue)\\b",
     pythonPatterns)),
   ("html", (none, htmlPatterns))]

/-- The dict lookup `SYNTAX_RULES[language]` guarded by
`language in SYNTAX_RULES`. -/
def rulesFor (lang : String) : Option (Option String × List (String × Tag)) :=
  SYNTAX_RULES.lookup lang

/-- `SyntaxHighlighter._highlight_pattern`: its first statement calls
`self.text.search(pattern, start, stopindex='end', regexp=True,
count=tk.ANCHOR, flags=flags)`, but `tkinter.Text.search` accepts no
`flags` keyword, so every call — whatever the pattern, the tag or the
buffer, and also for the default `flags=0` — raises `TypeError` before
any match is attempted or any `tag_add` runs.  The tab state is returned
unchanged together with the raised-exception indicator. -/
def highlight_pattern (t : EditorTab) (_pattern : String) (_tag : Tag) :
    EditorTab × Bool :=
  (t, true)

/-- `SyntaxHighlighter.highlight`: `_clear_tags` first removes every tag
unconditionally; then, when the language has an entry in `SYNTAX_RULES`,
the method calls `_highlight_pattern` — on the `keywords` regex if the
entry has one, otherwise on the first declared pattern — and that very
first call raises `TypeError`, so no span is ever applied and the
exception propagates with all tags cleared.  Returns the tab state and
the raised flag. -/
def highlight (t : EditorTab) : EditorTab × Bool :=
  match rulesFor t.hl_language with
  | none => ({ t with spans := [] }, false)
  | some (some kw, _) => highlight_pattern { t with spans := [] } kw Tag.keyword
  | some (none, []) => ({ t with spans := [] }, false)
  | some (none, (pat, tg) :: _) => highlight_pattern { t with spans := [] } pat tg

/-- `SyntaxHighlighter.set_language`: stores the language, then calls
`highlight`; a `TypeError` raised there propagates to the caller with
the language already stored and the tags already cleared. -/
def hlSetLanguage (t : EditorTab) (lang : String) : EditorTab × Bool :=
  highlight { t with hl_language := lang }

/-! ## Tab-level event handlers -/

/-- `EditorTab._on_modify`, the handler bound to `<<Modified>>`: when the
widget's internal modified flag is set, record `text_modified`, reset the
widget flag (`edit_modified(False)`), and call `highlight`.  The handler
runs inside a Tk callback, so the `TypeError` that `highlight` raises for
a rule-table language is reported by Tk and does not propagate; the
mutations made before and during the call (including the tag clearing)
persist. -/
def on_modify (t : EditorTab) : EditorTab :=
  if t.widget_modified then
    (highlight { t with text_modified := true, widget_modified := false }).1
  else t

/-- `tab.text.insert('end', content)`: appends to the buffer; the Tk text
widget sets its modified flag, which fires `<<Modified>>`, whose handler
`_on_modify` we model as running when the event is processed. -/
def insertText (t : EditorTab) (s : List Char) : EditorTab :=
  on_modify { t with buffer := t.buffer ++ s, widget_modified := true }

/-! ## The editor session (`TextEditor`) -/

/-- Session state of `TextEditor`: the notebook's ordered tab list, the
index of the selected tab, and the fields set in `TextEditor.__init__`
(`theme`, `auto_save`, `_current_language`). -/
structure TextEditor where
  tabs : List EditorTab
  active : Nat
  theme : String
  auto_save : Bool
  current_language : String
deriving DecidableEq, Repr

/-- The selected tab, as returned by `TextEditor.current_tab` (`None`
when the notebook is empty or the index is out of range). -/
def current_tab (ed : TextEditor) : Option EditorTab := ed.tabs[ed.active]?

/-- Replace the tab at index `i` by `f` of it (other indices untouched). -/
def mapTabAt (ed : TextEditor) (i : Nat) (f : EditorTab → EditorTab) : TextEditor :=
  match ed.tabs[i]? with
  | some t => { ed with tabs := ed.tabs.set i (f t) }
  | none => ed

/-- `TextEditor.set_language`: store the session-wide
`_current_language`, then — if a tab is selected — call the selected
tab's `highlighter.set_language`, whose `TypeError` (raised for any
language in `SYNTAX_RULES`) propagates to `set_language`'s caller; the
second component is that raised flag. -/
def set_language (ed : TextEditor) (lang : String) : TextEditor × Bool :=
  let ed2 := { ed with current_language := lang }
  match ed2.tabs[ed2.active]? with
  | none => (ed2, false)
  | some t =>
    let ht := hlSetLanguage t lang
    ({ ed2 with tabs := ed2.tabs.set ed2.active ht.1 }, ht.2)

/-- Index of the last occurrence of `c` in `cs`, if any. -/
def lastIdxOf (cs : List Char) (c : Char) : Option Nat :=
  ((cs.enum.filter (fun p => p.2 = c)).getLast?).map (fun p => p.1)

/-- The extension part of `os.path.splitext(path)` (posix rules): the
characters from the last dot, provided the dot lies after the last `/`
and the base name has a character other than a dot before it (so
`.bashrc` has no extension). -/
def splitextExt (path : String) : List Char :=
  let cs := path.data
  let sepEnd : Nat := match lastIdxOf cs '/' with
    | some i => i + 1
    | none => 0
  match lastIdxOf cs '.' with
  | none => []
  | some dotIdx =>
    if sepEnd ≤ dotIdx ∧
        ((cs.drop sepEnd).take (dotIdx - sepEnd)).any (fun c => c ≠ '.') then
      cs.drop dotIdx
    else []

/-- The extension-to-language table of `TextEditor._detect_language`,
applied to the lower-cased extension, with `dict.get` default `'text'`. -/
def detectLang (path : String) : String :=
  let ext := (splitextExt path).map Char.toLower
  if ext = ".py".data then "python"
  else if ext = ".html".data then "html"
  else if ext = ".js".data then "javascript"
  else "text"

/-- `TextEditor._detect_language` as a session operation: detect from the
path and call `set_language` (which acts on the selected tab and may
raise; the flag is passed through). -/
def detect_language (ed : TextEditor) (path : String) : TextEditor × Bool :=
  set_language ed (detectLang path)

/-- `TextEditor.add_tab(title, content, path)`: create a fresh
`EditorTab` (`wid`/`now` are the Tk widget id and creation clock) and
append it to the notebook — adding the first tab of an empty notebook
selects it; then insert `content` if nonempty (the `<<Modified>>`
handler's exception stays inside the callback); then, when a path is
given, set `tab.file_path` and run `_detect_language` — this runs before
`notebook.select(tab)`, so it acts on the previously selected tab, and
when that tab's new language is in `SYNTAX_RULES` the `TypeError`
propagates out of `add_tab` and the final `notebook.select(tab)` never
runs.  The second component is the raised flag. -/
def add_tab (ed : TextEditor) (title : String) (content : List Char)
    (path : Option String) (wid : Nat) (now : Int) : TextEditor × Bool :=
  let newIdx := ed.tabs.length
  let tab := newEditorTab title wid now
  let ed1 : TextEditor :=
    { ed with tabs := ed.tabs ++ [tab]
              active := if newIdx = 0 then 0 else ed.active }
  let ed2 := if content.isEmpty then ed1
             else mapTabAt ed1 newIdx (fun t => insertText t content)
  match path with
  | some p =>
      let r := detect_language
        (mapTabAt ed2 newIdx (fun t => { t with file_path := some p })) p
      if r.2 then (r.1, true)
      else ({ r.1 with active := newIdx }, false)
  | none => ({ ed2 with active := newIdx }, false)

/-- `os.path.basename`. -/
def basename (path : String) : String :=
  match lastIdxOf path.data '/' with
  | some i => String.mk (path.data.drop (i + 1))
  | none => path

/-- `TextEditor.open_file(path)`: reading the file either fails (the
`except` branch only shows a message box) or yields its content, in
which case `add_tab(title, content, path)` runs and then
`_detect_language(path)` runs a second time — now acting on the newly
selected tab.  Both calls sit inside `open_file`'s `try`, so a
`TypeError` raised by either is caught by the same `except`, the state
reached at the raise is kept, and nothing propagates further. -/
def open_file (ed : TextEditor) (path : String) (fileContent : Option String)
    (wid : Nat) (now : Int) : TextEditor :=
  match fileContent with
  | none => ed
  | some content =>
      let r := add_tab ed (basename path) content.data (some path) wid now
      if r.2 then r.1
      else (detect_language r.1 path).1

/-- `TextEditor.close_tab`: on a modified selected tab, first
`_confirm_save`; a `False` answer aborts, otherwise the tab is removed
from the notebook (`forget`).  The second component is the final state
of the destroyed document (`none` when nothing was closed). -/
def close_tab (ed : TextEditor) (resp : ConfirmResponse) (io : IOOutcome)
    (now : Int) : TextEditor × Option EditorTab :=
  match ed.tabs[ed.active]? with
  | none => (ed, none)
  | some current =>
    if current.text_modified then
      let (ok, t2) := confirm_save current resp io now
      if ok then ({ ed with tabs := ed.tabs.eraseIdx ed.active }, some t2)
      else (ed, none)
    else ({ ed with tabs := ed.tabs.eraseIdx ed.active }, some current)

/-- Python `!=` between a `str` and an `int`: values of different types
with no cross-type `__eq__` always compare unequal, so the result is
`True` whatever the operands. -/
def pyStrNeInt (_s : String) (_n : Nat) : Bool := true

/-- `TextEditor.close_other_tabs`: for each pathname in
`notebook.tabs()` the code runs `forget(tab)` unless
`tab != current.winfo_id()` is false — but `tab` is a `str` pathname and
`winfo_id()` an `int`, so the guard is always true and every tab is
forgotten. -/
def close_other_tabs (ed : TextEditor) : TextEditor :=
  match ed.tabs[ed.active]? with
  | none => ed
  | some current =>
    { ed with tabs := ed.tabs.filter (fun t => ¬ pyStrNeInt t.name current.wid) }

/-- The status line built by `TextEditor.update_status` when `tab` is
the selected tab: file path (or 未保存), encoding, the session-wide
`_current_language`, and the modified state. -/
def status_text (ed : TextEditor) (t : EditorTab) : String :=
  "文件：" ++ t.file_path.getD "未保存" ++ " | " ++
  "编码：" ++ t.encoding ++ " | " ++
  "语言：" ++ ed.current_language ++ " | " ++
  "状态：" ++ (if t.text_modified then "已修改" else "已保存")

/-- The session right after `TextEditor.__init__` (theme dark, autosave
off, current language python) and the `add_tab('新文件')` of
`_setup_ui`, with widget id 1 at clock 0 (no path, so no language
detection runs and nothing raises). -/
def initialEditor : TextEditor :=
  (add_tab
    { tabs := [], active := 0, theme := "dark", auto_save := false,
      current_language := "python" }
    "新文件" [] none 1 0).1

/-! ## Concrete instances used by the theorems below -/

/-- An unmodified tab that has a file path and was last saved at 0. -/
def tabC2 : EditorTab := { newEditorTab "tab2" 2 0 with file_path := some "a.txt" }

/-- An unmodified tab (the selected one in `edC3`). -/
def tabA : EditorTab := newEditorTab "tabA" 10 0

/-- A modified tab with unsaved content. -/
def tabB : EditorTab :=
  { newEditorTab "tabB" 11 0 with text_modified := true, buffer := "x".data }

/-- A session with two tabs, the unmodified `tabA` selected. -/
def edC3 : TextEditor :=
  { tabs := [tabA, tabB], active := 0, theme := "dark", auto_save := false,
    current_language := "python" }

/-- A modified tab with a file path and unsaved content. -/
def tabC4 : EditorTab :=
  { newEditorTab "tab4" 4 0 with
      file_path := some "a.txt", text_modified := true, buffer := "x".data }

/-- The selected tab of `edC7`. -/
def tabC7a : EditorTab := newEditorTab "tab7a" 20 0

/-- A background tab of `edC7`, with highlighter language html. -/
def tabC7b : EditorTab := { newEditorTab "tab7b" 21 0 with hl_language := "html" }

/-- A session with two tabs and session language python. -/
def edC7 : TextEditor :=
  { tabs := [tabC7a, tabC7b], active := 0, theme := "dark", auto_save := false,
    current_language := "python" }

/-- A tab in the plain-text language that still carries old spans. -/
def tabC8 : EditorTab :=
  { newEditorTab "tab8" 8 0 with
      hl_language := "text", spans := [Span.mk 0 4 Tag.keyword] }

/-- A modified tab with a file path and unsaved content. -/
def tabC10 : EditorTab :=
  { newEditorTab "tab10" 5 0 with
      text_modified := true, file_path := some "a.txt", buffer := "x".data }

/-- A session whose only tab is the modified `tabC10`. -/
def edC10 : TextEditor :=
  { tabs := [tabC10], active := 0, theme := "dark", auto_save := false,
    current_language := "python" }

/-- A python-language tab whose buffer is the four characters of a
double-quoted if (quotes included). -/
def tabQuotedIf : EditorTab :=
  { newEditorTab "tabIf" 3 0 with buffer := "\"if\"".data }

/-- A python-language tab whose buffer holds keyword-bearing text. -/
def tabIfX : EditorTab :=
  { newEditorTab "tabIfX" 6 0 with buffer := "if x".data }

/-! ## Helper lemmas -/

/-- A failed write leaves the tab exactly as it was. -/
theorem save_ioError (t : EditorTab) (msg : String) (now : Int) :
    save t (IOOutcome.ioError msg) now = t := by
  unfold save
  split <;> rfl

/-- Whatever the language, the state `highlight` leaves behind is the
input tab with all spans cleared: either no rules apply, or the first
`_highlight_pattern` call raises right after the clearing. -/
theorem highlight_fst (t : EditorTab) :
    (highlight t).1 = { t with spans := [] } := by
  unfold highlight highlight_pattern
  cases hsc : rulesFor t.hl_language with
  | none => rfl
  | some r =>
    obtain ⟨kw, pats⟩ := r
    cases kw with
    | some k => rfl
    | none =>
      cases pats with
      | nil => rfl
      | cons p ps => rfl

/-! ## Claim theorems -/

/-- C1 (code bug): highlighting the python buffer consisting of a quoted
if tags nothing at all — `highlight` clears every tag and its first
`_highlight_pattern` call raises `TypeError` (`tkinter.Text.search` has
no `flags` keyword) before any `tag_add`, so no position of the literal
is tagged string, or keyword, or anything else, contrary to the claimed
string-over-keyword tagging. -/
theorem highlight_python_tags_nothing :
    tabQuotedIf.hl_language = "python" ∧
    (highlight tabQuotedIf).1.spans = [] ∧
    (highlight tabQuotedIf).2 = true := by decide

/-- C2 counterexample: with autosave on and 31 seconds elapsed,
`_auto_save_check` triggers `save()` on a document whose state is
Unmodified — the code never consults `text_modified`. -/
theorem autosave_ignores_modified_cex :
    tabC2.text_modified = false ∧
    (auto_save_check tabC2 true 31 IOOutcome.ok).2 = true := by decide

/-- C2 (amended): the autosave check triggers `save()` exactly when
session autosave is enabled and more than 30 seconds elapsed since the
last save; the document's Modified state is not consulted, so the
trigger is independent of `text_modified`. -/
theorem autosave_trigger_condition :
    ∀ (t : EditorTab) (a : Bool) (now : Int) (io : IOOutcome),
      ((auto_save_check t a now io).2 = true ↔
        (a = true ∧ now - t.last_save > 30)) ∧
      ∀ m : Bool,
        (auto_save_check { t with text_modified := m } a now io).2 =
          (auto_save_check t a now io).2 := by
  intro t a now io
  constructor
  · unfold auto_save_check
    split
    case isTrue h => simp_all
    case isFalse h => simp_all
  · intro m
    simp only [auto_save_check]
    split <;> rfl

/-- C3 (code bug): `close_other_tabs` on a session whose selected tab is
`tabA` (with the modified `tabB` in the background) removes every tab —
including the one to keep — and never requests a save confirmation (the
operation consults no confirmation response at all): the guard compares
a str pathname with an int widget id, which is always unequal in python. -/
theorem close_other_tabs_removes_all :
    edC3.tabs[0]? = some tabA ∧ edC3.active = 0 ∧
    tabB.text_modified = true ∧
    (close_other_tabs edC3).tabs = [] := by decide

/-- C4: a `save()` that fails with an IO error leaves the document
exactly as it was — still Modified if it was, buffer and last-saved
timestamp untouched — while a successful `save()` on a document with a
file path resets Modified and updates the timestamp. -/
theorem save_error_preserves_state :
    (∀ (t : EditorTab) (now : Int) (msg : String),
        save t (IOOutcome.ioError msg) now = t) ∧
    (∀ (t : EditorTab) (p : String) (now : Int), t.file_path = some p →
        (save t IOOutcome.ok now).text_modified = false ∧
        (save t IOOutcome.ok now).buffer = t.buffer ∧
        (save t IOOutcome.ok now).last_save = now) := by
  constructor
  · intro t now msg; exact save_ioError t msg now
  · intro t p now h
    unfold save
    rw [h]
    exact ⟨rfl, rfl, rfl⟩

/-- Witness for C4 at a modified tab with file path: the failed save
changes nothing and the successful save resets Modified and sets the
timestamp to 99. -/
theorem save_error_preserves_state_witness :
    save tabC4 (IOOutcome.ioError "disk full") 99 = tabC4 ∧
    (save tabC4 IOOutcome.ok 99).text_modified = false ∧
    (save tabC4 IOOutcome.ok 99).last_save = 99 :=
  ⟨save_error_preserves_state.1 tabC4 99 "disk full",
   (save_error_preserves_state.2 tabC4 "a.txt" 99 (by decide)).1,
   (save_error_preserves_state.2 tabC4 "a.txt" 99 (by decide)).2.2⟩

/-- C5 (code bug): a new empty tab starts Unmodified, but a document
created by `open_file` with non-empty content ends up Modified: the
insertion of the content fires `<<Modified>>`, whose handler sets
`text_modified`, and nothing resets it. -/
theorem opened_document_marked_modified :
    ((initialEditor.tabs[0]?).map (fun t => t.text_modified) = some false) ∧
    (((open_file initialEditor "notes.txt" (some "hello") 2 100).tabs[1]?).map
        (fun t => t.text_modified) = some true) := by decide

/-- C6 (code bug): the scanning loop of `_highlight_pattern` never
executes an iteration — for a language with `SYNTAX_RULES` entries,
`highlight` raises `TypeError` at the first `text.search` call (no
`flags` keyword; the `count` call is invalid Tcl besides), so the loop
neither scans, nor advances any cursor, nor emits a span: the run ends
raised with all tags cleared and nothing applied. -/
theorem scan_never_runs :
    ∀ t : EditorTab, t.hl_language = "python" ∨ t.hl_language = "html" →
      (highlight t).2 = true ∧ (highlight t).1.spans = [] := by
  intro t h
  have hsp : (highlight t).1.spans = [] := by rw [highlight_fst]
  refine ⟨?_, hsp⟩
  cases h with
  | inl h =>
    unfold highlight highlight_pattern
    rw [h]
    rfl
  | inr h =>
    unfold highlight highlight_pattern
    rw [h]
    rfl

/-- Witness for C6 at `tabIfX`, a python tab with keyword-bearing text:
the highlighting pass raises and applies no span. -/
theorem scan_never_runs_witness :
    (highlight tabIfX).2 = true ∧ (highlight tabIfX).1.spans = [] :=
  scan_never_runs tabIfX (Or.inl (by decide))

/-- C7 counterexample: after `set_language` to html on a session whose
selected tab is `tabC7a`, the background tab `tabC7b` itself is
unchanged, yet the status line shown for it changes — `update_status`
displays the session-wide current language, not the tab's own. -/
theorem set_language_changes_status_of_others :
    (set_language edC7 "html").1.tabs[1]? = some tabC7b ∧
    status_text (set_language edC7 "html").1 tabC7b ≠ status_text edC7 tabC7b := by
  decide

/-- C7 (amended): `set_language` touches only the selected tab — every
other tab's content, modified flag and highlighter language are
unchanged — and on the selected tab it stores the new language and runs
`highlight`, which clears the tab's spans and, when the language is in
`SYNTAX_RULES` (python or html), raises `TypeError` before applying any;
it also sets the session-wide current language, which is the language
field `update_status` shows for whichever tab is selected. -/
theorem set_language_frame :
    ∀ (ed : TextEditor) (lang : String) (t : EditorTab),
      ed.tabs[ed.active]? = some t →
      ((∀ j, j ≠ ed.active → (set_language ed lang).1.tabs[j]? = ed.tabs[j]?) ∧
       (set_language ed lang).1.tabs[ed.active]? = some (hlSetLanguage t lang).1 ∧
       (hlSetLanguage t lang).1.hl_language = lang ∧
       (hlSetLanguage t lang).1.spans = [] ∧
       ((hlSetLanguage t "python").2 = true ∧ (hlSetLanguage t "html").2 = true) ∧
       (set_language ed lang).1.current_language = lang) := by
  intro ed lang t ht
  have hlen : ed.active < ed.tabs.length := by
    cases hlt : decide (ed.active < ed.tabs.length) with
    | true => exact of_decide_eq_true hlt
    | false =>
      exfalso
      have : ed.tabs[ed.active]? = none :=
        List.getElem?_eq_none (Nat.le_of_not_lt (of_decide_eq_false hlt))
      rw [this] at ht
      exact Option.noConfusion ht
  have hfst : (hlSetLanguage t lang).1 = { t with hl_language := lang, spans := [] } := by
    unfold hlSetLanguage
    rw [highlight_fst]
  refine ⟨?_, ?_, ?_, ?_, ⟨rfl, rfl⟩, ?_⟩
  · intro j hj
    unfold set_language
    dsimp only
    rw [ht]
    exact List.getElem?_set_ne (Ne.symm hj)
  · unfold set_language
    dsimp only
    rw [ht]
    exact List.getElem?_set_self hlen
  · rw [hfst]
  · rw [hfst]
  · unfold set_language
    dsimp only
    rw [ht]

/-- Witness for C7 (amended) on `edC7`: the background tab is untouched
and the session language becomes html. -/
theorem set_language_frame_witness :
    (set_language edC7 "html").1.tabs[1]? = edC7.tabs[1]? ∧
    (set_language edC7 "html").1.current_language = "html" := by
  have h := set_language_frame edC7 "html" tabC7a (by decide)
  exact ⟨h.1 1 (by decide), h.2.2.2.2.2⟩

/-- C8: language detection maps report.py to python, index.html to html
and the unknown extension of notes.txt to plain text; and `highlight` on
a tab whose language has no entry in `SYNTAX_RULES` clears the old spans,
applies none whatever the buffer, and completes without raising. -/
theorem unknown_language_no_spans :
    detectLang "report.py" = "python" ∧
    detectLang "index.html" = "html" ∧
    detectLang "notes.txt" = "text" ∧
    ∀ (t : EditorTab) (lang : String), t.hl_language = lang →
      lang ≠ "python" → lang ≠ "html" →
      highlight t = ({ t with spans := [] }, false) := by
  refine ⟨by decide, by decide, by decide, ?_⟩
  intro t lang hl h1 h2
  have hb1 : (lang == "python") = false := beq_eq_false_iff_ne.mpr h1
  have hb2 : (lang == "html") = false := beq_eq_false_iff_ne.mpr h2
  have hr : rulesFor lang = none := by
    simp [rulesFor, SYNTAX_RULES, List.lookup, hb1, hb2]
  unfold highlight
  rw [hl, hr]

/-- Witness for C8 at `tabC8`, a plain-text tab with stale spans: after
`highlight` it has no spans and no exception was raised. -/
theorem unknown_language_no_spans_witness :
    tabC8.spans ≠ [] ∧ (highlight tabC8).1.spans = [] ∧ (highlight tabC8).2 = false := by
  have h := unknown_language_no_spans.2.2.2 tabC8 "text" rfl (by decide) (by decide)
  refine ⟨by decide, ?_, ?_⟩
  · rw [h]
  · rw [h]

/-- C9: `highlight` twice on unchanged content and language behaves
exactly like `highlight` once — each pass first clears all tags and then
applies the same spans (none: for a rule-table language the pass raises
before applying any, otherwise there is nothing to apply), so the second
run reproduces the state and the outcome of the first. -/
theorem highlight_idempotent :
    ∀ t : EditorTab, highlight (highlight t).1 = highlight t := by
  intro t
  rw [highlight_fst]
  unfold highlight highlight_pattern
  dsimp only

/-- C10: closing a Modified document with the save-then-close answer
removes it from the tab list even when `save()` fails with an IO error:
`_confirm_save` returns true after the failed save, and the destroyed
document is still Modified, its buffer never persisted. -/
theorem close_after_failed_save :
    ∀ (ed : TextEditor) (current : EditorTab) (msg : String) (now : Int),
      ed.tabs[ed.active]? = some current →
      current.text_modified = true →
      (confirm_save current ConfirmResponse.yes (IOOutcome.ioError msg) now).1
          = true ∧
      (close_tab ed ConfirmResponse.yes (IOOutcome.ioError msg) now).1.tabs =
        ed.tabs.eraseIdx ed.active ∧
      (close_tab ed ConfirmResponse.yes (IOOutcome.ioError msg) now).2 =
        some current ∧
      ((close_tab ed ConfirmResponse.yes (IOOutcome.ioError msg) now).2.map
          (fun t => t.text_modified)) = some true := by
  intro ed current msg now hcur hmod
  have hclose :
      close_tab ed ConfirmResponse.yes (IOOutcome.ioError msg) now =
        ({ ed with tabs := ed.tabs.eraseIdx ed.active }, some current) := by
    unfold close_tab
    rw [hcur]
    simp [hmod, confirm_save, save_ioError]
  refine ⟨rfl, ?_, ?_, ?_⟩
  · rw [hclose]
  · rw [hclose]
  · rw [hclose]
    simp [hmod]

/-- Witness for C10 on `edC10`, whose only tab is modified with unsaved
content: after a yes answer and a failed save the tab list is empty and
the destroyed document is still Modified. -/
theorem close_after_failed_save_witness :
    (close_tab edC10 ConfirmResponse.yes (IOOutcome.ioError "disk full") 50).1.tabs
        = [] ∧
    ((close_tab edC10 ConfirmResponse.yes (IOOutcome.ioError "disk full") 50).2.map
        (fun t => t.text_modified)) = some true := by
  have h := close_after_failed_save edC10 tabC10 "disk full" 50 (by decide) (by decide)
  exact ⟨h.2.1.trans (by decide), h.2.2.2⟩
